import Mathlib

/-!
Verification of the SarvajnaGPT action-pipeline specification against the
repository sources.  The repository ships the Vue frontend
(`ResearchAssistant.vue`, `PowerModeActions.vue`) and documentation; the
backend pipeline / router / window-tracker modules are referenced by the
docs and the frontend but their bodies are not present, so those parts are
modelled from the specification text (each such definition is marked
`Modelled from the spec:`).  Frontend logic is embedded directly from the
Vue component sources.
-/

/-! ## Frontend embedding: ResearchAssistant.vue -/

/-- JavaScript `String.prototype.trim`: strip whitespace from both ends.
Implemented structurally on the character list so it reduces in the kernel. -/
def jsTrim (s : String) : String :=
  String.mk (((s.data.dropWhile Char.isWhitespace).reverse.dropWhile
    Char.isWhitespace).reverse)

/-- JavaScript `slice(0, n)` / `substring(0, n)`: the first `n` characters. -/
def jsTake (s : String) (n : Nat) : String :=
  String.mk (s.data.take n)

/-- One selection entry as produced by the clipboard path of
`refreshInlineSelection` or by the backend passive probe.  `timestamp` is
`none` when the JSON field is not a number (`typeof tsSeconds !== 'number'`). -/
structure SelectionEntry where
  source : String
  label : String
  preview : String
  len : Nat
  timestamp : Option Int
  deriving Repr, DecidableEq

/-- The `inlineSelectionData` payload: a list of selections plus an optional
primary source name. -/
structure SelectionData where
  selections : List SelectionEntry
  primary : Option String
  deriving Repr, DecidableEq

/-- Embeds the `inlineSelectionSummary` computed property: pick the selection
whose `source` matches `primary`, falling back to the first selection. -/
def inlineSelectionSummary (data : Option SelectionData) : Option SelectionEntry :=
  match data with
  | none => none
  | some d =>
      if d.selections.isEmpty then none
      else
        let fromPrimary :=
          match d.primary with
          | some p => d.selections.find? (fun sel => sel.source == p)
          | none => none
        match fromPrimary with
        | some c => some c
        | none => d.selections.head?

/-- Embeds `getFreshInlineSelectionPreview(maxAgeMs = 15000)`: returns the
preview only if the summary exists, has non-zero length, non-empty preview
text, a numeric timestamp, the snapshot is within the freshness window, and
Power Mode is on; the final step returns the preview only when its trimmed
form is non-empty. -/
def getFreshInlineSelectionPreview (summary : Option SelectionEntry)
    (nowMs : Int) (powerMode : Bool) (maxAgeMs : Int) : Option String :=
  match summary with
  | none => none
  | some s =>
      if s.len == 0 || s.preview == "" then none
      else
        match s.timestamp with
        | none => none
        | some tsSeconds =>
            let ageMs := nowMs - tsSeconds * 1000
            if ageMs > maxAgeMs then none
            else if !powerMode then none
            else if jsTrim s.preview == "" then none
            else some s.preview

/-- Reactive state touched by `refreshInlineSelection`. -/
structure InlineState where
  powerMode : Bool
  data : Option SelectionData
  error : String
  shouldReport : Bool
  loading : Bool
  lastClipboardText : String
  deriving Repr, DecidableEq

/-- Outcome of the one clipboard read attempted inside
`refreshInlineSelection`: the read may throw (permission) or return text. -/
inductive ClipRead where
  | failed : ClipRead
  | ok (text : String) : ClipRead
  deriving Repr, DecidableEq

/-- Outcome of the backend passive-probe fetch used as fallback. -/
inductive ProbeResult where
  | httpError : ProbeResult
  | payload (data : SelectionData) : ProbeResult
  deriving Repr, DecidableEq

/-- Embeds `refreshInlineSelection(quiet)`.  When Power Mode is off the
selection data is cleared and the function returns before any clipboard or
network access; otherwise the clipboard is tried first and the backend probe
is the fallback.  `nowSec` stands for `Math.floor(Date.now()/1000)`. -/
def refreshInlineSelection (s : InlineState) (quiet : Bool)
    (clip : ClipRead) (probe : ProbeResult) (nowSec : Int) : InlineState :=
  if !s.powerMode then
    if quiet then
      { s with data := none, error := "", shouldReport := false }
    else
      { s with data := none,
               error := "Enable Power Mode to work with inline selections.",
               shouldReport := true }
  else if s.loading then s
  else
    let s := if quiet then { s with error := "", shouldReport := false }
             else { s with error := "", shouldReport := true }
    let clipboardText := match clip with
      | ClipRead.failed => ""
      | ClipRead.ok t => t
    let useClipboardAPI := clipboardText != "" && jsTrim clipboardText != ""
    let s := if useClipboardAPI then { s with lastClipboardText := clipboardText } else s
    if useClipboardAPI && jsTrim clipboardText != "" then
      let preview := jsTake (jsTrim clipboardText) 1200
      { s with
        data := some { selections := [{ source := "clipboard",
                                        label := "Clipboard (from Word/App)",
                                        preview := preview,
                                        len := clipboardText.length,
                                        timestamp := some nowSec }],
                       primary := some "clipboard" },
        error := "", shouldReport := false, loading := false }
    else
      match probe with
      | ProbeResult.httpError =>
          if quiet then { s with data := none, loading := false }
          else { s with data := none,
                        error := "Selection probe failed",
                        shouldReport := true, loading := false }
      | ProbeResult.payload d =>
          if !d.selections.isEmpty then
            { s with data := some d, error := "", shouldReport := false,
                     loading := false }
          else if quiet then
            { s with data := none, shouldReport := false, loading := false }
          else
            { s with data := none,
                     error := "No active selection detected (try copying with Ctrl+C)",
                     shouldReport := true, loading := false }

/-- State owned by the clipboard monitor (`clipboardMonitorInterval`,
`lastClipboardText`, `savedSelectionText`).  `running` is true exactly when
the interval handle is non-null. -/
structure MonitorState where
  running : Bool
  lastClipboardText : String
  savedSelectionText : String
  deriving Repr, DecidableEq

/-- Embeds `startClipboardMonitoring`: a no-op when already running,
otherwise arms the interval and initialises `lastClipboardText` from the
current clipboard (read errors ignored). -/
def startClipboardMonitoring (m : MonitorState) (clip : ClipRead) : MonitorState :=
  if m.running then m
  else
    let last := match clip with
      | ClipRead.failed => m.lastClipboardText
      | ClipRead.ok t => t
    { m with running := true, lastClipboardText := last }

/-- Embeds `stopClipboardMonitoring`: clears the interval handle. -/
def stopClipboardMonitoring (m : MonitorState) : MonitorState :=
  { m with running := false }

/-- Embeds one tick of the 300 ms `setInterval` callback installed by
`startClipboardMonitoring`: if Power Mode is off the monitor stops itself;
otherwise new non-blank clipboard text updates `lastClipboardText` and
`savedSelectionText` (clipboard errors are swallowed).  A tick of a stopped
monitor does nothing. -/
def clipboardMonitorTick (powerMode : Bool) (clip : ClipRead)
    (m : MonitorState) : MonitorState :=
  if !m.running then m
  else if !powerMode then stopClipboardMonitoring m
  else
    match clip with
    | ClipRead.failed => m
    | ClipRead.ok t =>
        if t != "" && jsTrim t != "" && t != m.lastClipboardText then
          { m with lastClipboardText := t, savedSelectionText := t }
        else m

/-- Embeds `disableInlineSelection`: stop the monitor and clear every piece
of selection state, including the saved selection text. -/
def disableInlineSelection (m : MonitorState) (i : InlineState) :
    MonitorState × InlineState :=
  ({ m with running := false, lastClipboardText := "", savedSelectionText := "" },
   { i with data := none, error := "", shouldReport := false })

/-- Embeds the `watch(powerMode)` handler: disabling Power Mode runs
`disableInlineSelection`; enabling it changes nothing here. -/
def powerModeWatch (enabled : Bool) (m : MonitorState) (i : InlineState) :
    MonitorState × InlineState :=
  if !enabled then disableInlineSelection m i else (m, i)

/-! ## Frontend embedding: request bodies built by sendMessage and friends -/

/-- Body of the POST to `/api/power/power_chat` assembled in `sendMessage`
(Power Mode branch).  `auto_execute` is the literal `auto_execute: true`
field sent so the backend will auto-execute planned actions. -/
structure PowerChatBody where
  chat_id : String
  text : String
  doc_info : Option String
  service : String
  selected_tags : Option (List String)
  mem_tags : Option (List String)
  mem_context : Option String
  auto_execute : Bool
  deriving Repr, DecidableEq

/-- Builds the power-chat body exactly as `sendMessage` does: the message
text gains an `[Inline Selection Preview]` section only when the saved
selection text is non-empty, and `auto_execute` is always `true`. -/
def powerChatBody (chatId fullText selectionText service : String)
    (tags : List String) (memCtx : Option String) : PowerChatBody :=
  { chat_id := chatId
  , text := fullText ++ (if selectionText != "" then
      "\n\n[Inline Selection Preview]:\n" ++ selectionText else "")
  , doc_info := none
  , service := service
  , selected_tags := if tags.length > 0 then some tags else none
  , mem_tags := if tags.length > 0 then some tags else none
  , mem_context := memCtx
  , auto_execute := true }

/-- Body of the POST to `/api/agent/autoplan` fired by `sendMessage` right
after the Power Mode model reply; `execute` is the literal `execute: true`. -/
structure AutoplanBody where
  prompt : String
  execute : Bool
  base_folder : String
  deriving Repr, DecidableEq

/-- Builds the autoplan body exactly as `sendMessage` does. -/
def autoplanBody (messageText : String) : AutoplanBody :=
  { prompt := messageText, execute := true, base_folder := "project" }

/-- Body of the non-Power-Mode POST to the plain chat endpoint.  Note there
is no selection or clipboard derived field at all. -/
structure PlainChatBody where
  chat_id : String
  text : String
  doc_info : Option String
  service : String
  selected_tags : Option (List String)
  mem_tags : Option (List String)
  mem_context : Option String
  deriving Repr, DecidableEq

/-- Builds the plain chat body exactly as the `else` branch of
`sendMessage` does. -/
def plainChatBody (chatId fullText : String) (fileNames : List String)
    (service : String) (tags : List String) (memCtx : Option String) :
    PlainChatBody :=
  { chat_id := chatId
  , text := fullText
  , doc_info := if fileNames.length > 0 then some (String.intercalate ", " fileNames) else none
  , service := service
  , selected_tags := if tags.length > 0 then some tags else none
  , mem_tags := if tags.length > 0 then some tags else none
  , mem_context := memCtx }

/-- Body of the POST to `/api/power/open_doc_intelligently_direct` sent by
`loadChatMessages` when a chat with a stored `doc_path` is reopened in
Power Mode; `split_screen` is hard-coded `true`. -/
structure OpenDocBody where
  abs_path : String
  split_screen : Bool
  preferred_side : String
  chat_context : String
  deriving Repr, DecidableEq

/-- Builds the reopen body exactly as `loadChatMessages` does:
`split_screen: true`, `preferred_side: 'right'`, and the chat context is the
space-joined message texts truncated to 1000 characters. -/
def openDocBody (docPath : String) (messageTexts : List String) : OpenDocBody :=
  { abs_path := docPath
  , split_screen := true
  , preferred_side := "right"
  , chat_context := jsTake (String.intercalate " " messageTexts) 1000 }

/-- Embeds `getServiceName`. -/
def getServiceName (powerMode : Bool) : String :=
  if powerMode then "power_mode" else "research_assistant"

/-! ## Frontend embedding: the sendMessage control flow -/

/-- The network requests `sendMessage` can issue, in issue order. -/
inductive Request where
  | extractText (fileName chatId : String)
  | fileUpload (fileName chatId : String)
  | wordEnhance (prompt selectionText chatId : String)
  | powerChat (body : PowerChatBody)
  | powerExecute (chatId service : String)
  | autoplan (body : AutoplanBody)
  | plainChat (body : PlainChatBody)
  deriving Repr, DecidableEq

/-- The component state read by `sendMessage`. -/
structure SendState where
  userMessage : String
  attachedFileNames : List String
  isSending : Bool
  selectedChatId : String
  powerMode : Bool
  savedSelectionText : String
  monitoringActive : Bool
  selectedTags : List String
  deriving Repr, DecidableEq

/-- Results of the network calls `sendMessage` awaits, supplied as an
oracle so the control flow stays a pure function. -/
structure NetResponses where
  fileContent : String
  uploadOk : Bool
  memContext : Option String
  enhanceOk : Bool
  powerChatOk : Bool
  actionCount : Nat
  serverHandled : Bool
  planOk : Bool
  planActionCount : Nat
  deriving Repr, DecidableEq

/-- What a run of `sendMessage` did: the requests it issued in order and
how many messages it appended to `messages`. -/
structure SendOutcome where
  requests : List Request
  appendedCount : Nat
  deriving Repr, DecidableEq

/-- File extensions `sendMessage` reads locally instead of posting to the
extraction endpoint. -/
def textLikeExts : List String := ["txt", "json", "csv", "py", "md"]

/-- Extension of a file name as computed by `split('.').pop().toLowerCase()`. -/
def fileExt (name : String) : String :=
  ((name.splitOn ".").getLastD "").toLower

/-- Embeds the early-return guard at the top of `sendMessage`:
`(!text.trim && files.length === 0) || isSending || !selectedChatId`. -/
def sendMessageEarlyReturn (s : SendState) : Bool :=
  (jsTrim s.userMessage == "" && s.attachedFileNames.isEmpty)
    || s.isSending || s.selectedChatId == ""

/-- Embeds the observable control flow of `sendMessage`: the guard, the
optional extraction/upload requests for the first attached file, the Word
enhancement path (saved selection text non-empty, monitoring active, length
over 10), the Power Mode chat with `auto_execute: true` followed by the
client-side execute fallback and the autoplan request, and the plain chat
branch.  Network outcomes come from the `NetResponses` oracle. -/
def sendMessageRun (s : SendState) (o : NetResponses) : SendOutcome :=
  if sendMessageEarlyReturn s then { requests := [], appendedCount := 0 }
  else
    let messageText := s.userMessage
    let fileToSend := s.attachedFileNames.head?
    let extractReqs := match fileToSend with
      | some n => if textLikeExts.contains (fileExt n) then []
                  else [Request.extractText n s.selectedChatId]
      | none => []
    let fileContent := match fileToSend with
      | some _ => o.fileContent
      | none => ""
    let uploadReqs := match fileToSend with
      | some n => [Request.fileUpload n s.selectedChatId]
      | none => []
    let fullText := messageText ++ (if fileContent != "" then
      "\n\n[Document Content]:\n" ++ fileContent else "")
    let service := getServiceName s.powerMode
    if fileToSend.isSome && !o.uploadOk then
      -- the FILE_URL upload threw; the catch block ends the run
      { requests := extractReqs ++ uploadReqs, appendedCount := 1 }
    else if s.powerMode then
      let selectionText := jsTrim s.savedSelectionText
      let shouldEnhanceWord := selectionText != "" && s.monitoringActive
        && selectionText.length > 10
      let enhanceReqs := if shouldEnhanceWord then
        [Request.wordEnhance messageText selectionText s.selectedChatId] else []
      if shouldEnhanceWord && o.enhanceOk then
        -- user message plus the completion message, then return
        { requests := extractReqs ++ uploadReqs ++ enhanceReqs, appendedCount := 2 }
      else
        let failMsgCount := if shouldEnhanceWord then 1 else 0
        let body := powerChatBody s.selectedChatId fullText selectionText
          service s.selectedTags o.memContext
        let base := extractReqs ++ uploadReqs ++ enhanceReqs ++ [Request.powerChat body]
        if !o.powerChatOk then
          -- fetch ok check failed: throw into the outer catch
          { requests := base, appendedCount := 1 + failMsgCount }
        else
          let execReqs := if o.actionCount > 0 && !o.serverHandled then
            [Request.powerExecute s.selectedChatId service] else []
          let planMsgCount := if o.planOk && o.planActionCount > 0 then 1 else 0
          { requests := base ++ execReqs ++ [Request.autoplan (autoplanBody messageText)]
          , appendedCount := 2 + failMsgCount + planMsgCount }
    else
      let body := plainChatBody s.selectedChatId fullText s.attachedFileNames
        service s.selectedTags o.memContext
      { requests := extractReqs ++ uploadReqs ++ [Request.plainChat body]
      , appendedCount := 2 }

/-! ## Frontend embedding: PowerModeActions.vue -/

/-- One requested action in the agent wire shape. -/
structure AgentAction where
  id : String
  type : String
  params : List (String × String)
  preview_only : Bool
  deriving Repr, DecidableEq

/-- Embeds `previewCreateFolder` from `PowerModeActions.vue`: the action it
POSTs to `/api/agent/preview`, with `preview_only: true` and the current
form values spread into `params`. -/
def previewCreateFolderAction (uuid parentPath name : String) : AgentAction :=
  { id := uuid
  , type := "fs.create_folder"
  , params := [("parent_path", parentPath), ("name", name)]
  , preview_only := true }

/-! ## Spec-modelled backend: Action Pipeline (backend/power_router.py and
the agent pipeline are not under src/, only their callers and docs are) -/

/-- Lifecycle states of an action in the Pipeline, spec section 4.6. -/
inductive ActionState where
  | Drafted | Previewed | Approved | Executed | Denied | Failed
  deriving Repr, DecidableEq

/-- Error taxonomy from spec section 7 (the part the claims use). -/
inductive PipelineError where
  | InvalidTransitionError
  | UnknownActionError
  deriving Repr, DecidableEq

/-- Events a caller can apply to an action held by the Pipeline. -/
inductive PipeEvent where
  | previewEv
  | approveEv
  | denyEv
  | editParamsEv
  | executeEv (execOk : Bool)
  deriving Repr, DecidableEq

/-- Modelled from the spec: the Pipeline transition function of section 4.6
(the backend pipeline module is not in src/).  `Drafted -> Previewed` on
preview, `Previewed -> Approved / Denied` on the explicit caller decision,
editing params before approval returns to `Drafted`, and `execute` succeeds
only from `Approved` (to `Executed` or `Failed` depending on the executor);
every other combination fails with `InvalidTransitionError`. -/
def pipeStep (st : ActionState) (ev : PipeEvent) :
    Except PipelineError ActionState :=
  match ev, st with
  | PipeEvent.previewEv, ActionState.Drafted => Except.ok ActionState.Previewed
  | PipeEvent.approveEv, ActionState.Previewed => Except.ok ActionState.Approved
  | PipeEvent.denyEv, ActionState.Previewed => Except.ok ActionState.Denied
  | PipeEvent.editParamsEv, ActionState.Drafted => Except.ok ActionState.Drafted
  | PipeEvent.editParamsEv, ActionState.Previewed => Except.ok ActionState.Drafted
  | PipeEvent.executeEv execOk, ActionState.Approved =>
      Except.ok (if execOk then ActionState.Executed else ActionState.Failed)
  | _, _ => Except.error PipelineError.InvalidTransitionError

/-- An append-only audit record, reduced to the fields the claims inspect. -/
structure AuditEntry where
  action_id : String
  action_type : String
  outcome : ActionState
  deriving Repr, DecidableEq

/-- Modelled from the spec: processing of one submitted action by
`submit_plan` plus the approval gate and the Audit Log rule of sections 4.1,
4.6 and 4.7 (the backend module is not in src/).  An action whose type has
no registered schema is rejected with `UnknownActionError` before any side
effect and the log is untouched; otherwise the action runs to its terminal
state (`Denied` when the caller denies, `Executed`/`Failed` from the
executor) and exactly one `AuditEntry` is appended. -/
def submitPlanOne (registry : List String) (log : List AuditEntry)
    (a : AgentAction) (approved execOk : Bool) :
    (Except PipelineError ActionState) × List AuditEntry :=
  if !(registry.contains a.type) then
    (Except.error PipelineError.UnknownActionError, log)
  else
    let terminal :=
      if !approved then ActionState.Denied
      else if execOk then ActionState.Executed
      else ActionState.Failed
    (Except.ok terminal,
     log ++ [{ action_id := a.id, action_type := a.type, outcome := terminal }])

/-- Number of audit entries recorded for a given action id. -/
def auditCountFor (log : List AuditEntry) (aid : String) : Nat :=
  (log.filter (fun e => e.action_id == aid)).length

/-- Preview result shape from spec section 6. -/
structure PreviewSummary where
  action_id : String
  summary : String
  target_path : String
  deriving Repr, DecidableEq

/-- Look up a parameter value by key. -/
def lookupParam (params : List (String × String)) (k : String) : Option String :=
  (params.find? (fun p => p.1 == k)).map (fun p => p.2)

/-- Modelled from the spec: the backend `/api/agent/preview` handler
(not in src/; `PowerModeActions.vue` only calls it).  It asks the resolved
executor for a dry-run description and performs no operation: the filesystem
— modelled as the list of existing paths — is returned unchanged in every
branch. -/
def agentPreview (fs : List String) (a : AgentAction) :
    (Option PreviewSummary) × List String :=
  if a.type == "fs.create_folder" then
    let parent := (lookupParam a.params "parent_path").getD ""
    let name := (lookupParam a.params "name").getD ""
    let target := parent ++ "/" ++ name
    (some { action_id := a.id
          , summary := "Create folder " ++ target
          , target_path := target }, fs)
  else if a.type == "fs.write_file" then
    let rel := (lookupParam a.params "relative_path").getD ""
    (some { action_id := a.id
          , summary := "Write file " ++ rel
          , target_path := rel }, fs)
  else
    (none, fs)

/-! ## Spec-modelled backend: Window State Tracker -/

/-- Arrangement states of a window session, spec section 4.3. -/
inductive ArrangementState where
  | Unknown | Single | SplitLeft | SplitRight
  deriving Repr, DecidableEq

/-- A split side. -/
inductive Side where
  | Left | Right
  deriving Repr, DecidableEq

/-- The split state matching a side. -/
def splitStateOf : Side → ArrangementState
  | Side.Left => ArrangementState.SplitLeft
  | Side.Right => ArrangementState.SplitRight

/-- Result of one `request_split` call: the new tracker state, the number of
underlying OS-level arrangement operations performed, and the status
reported to the caller. -/
structure SplitResult where
  newState : ArrangementState
  osOps : Nat
  success : Bool
  deriving Repr, DecidableEq

/-- Modelled from the spec: `request_split(side)` of section 4.3 and the
README split-state tracker (backend/automation_router.py is not in src/).
If the current state already equals the requested split state the call is a
no-op — zero OS-level arrangement operations — yet still reports success;
otherwise it performs one arrangement operation and moves to the matching
split state. -/
def requestSplit (st : ArrangementState) (side : Side) : SplitResult :=
  if st = splitStateOf side then
    { newState := st, osOps := 0, success := true }
  else
    { newState := splitStateOf side, osOps := 1, success := true }

/-- Modelled from the spec: the Pipeline normalization of a caller-supplied
`split_screen` flag (README: planner-sent `split_screen=false` is normalized
to `true`; the backend is not in src/).  Returns the effective flag together
with the audit record of the normalization: `some (requested, effective)`
verbatim whenever a change was applied, `none` when nothing changed. -/
def normalizeSplitScreen (requested : Bool) : Bool × Option (Bool × Bool) :=
  if requested = false then (true, some (false, true)) else (true, none)

/-! ## Spec-modelled backend: Automation Router -/

/-- Routing-relevant attributes of an action, spec sections 4.5 and 8. -/
structure RoutedAction where
  type : String
  markedSandboxed : Bool
  fallbackEligible : Bool
  deriving Repr, DecidableEq

/-- Result of `route(action)`. -/
inductive RouteResult where
  | native
  | sandboxed
  | noExecutor
  deriving Repr, DecidableEq

/-- Modelled from the spec: the `route` decision order of section 4.5
(backend/automation_router.py is not in src/).  `adapters` lists the action
types for which a Native Adapter exists; `healthy` lists the types whose
adapter's last health probe succeeded within the freshness window.
Order: (1) adapter exists and healthy: Native; (2) else marked
UI-only/sandboxed, or no adapter exists: Sandboxed; (3) else
`NoExecutorError`. -/
def route (adapters healthy : List String) (a : RoutedAction) : RouteResult :=
  if adapters.contains a.type && healthy.contains a.type then
    RouteResult.native
  else if a.markedSandboxed || !(adapters.contains a.type) then
    RouteResult.sandboxed
  else
    RouteResult.noExecutor

/-- Which mechanism the README snapping strategy uses. -/
inductive SnapPath where
  | cuaSnap
  | nativeKeys
  deriving Repr, DecidableEq

/-- Modelled from the spec: the README adaptive snapping strategy
("Prefer CUA-driven Snap selection when the CUA agent is healthy; gracefully
fall back to native Win+Arrow snapping"; the implementing backend is not in
src/).  Note this prefers the sandboxed CUA path when healthy, the reverse
of the `route` decision order. -/
def snapStrategy (cuaHealthy : Bool) : SnapPath :=
  if cuaHealthy then SnapPath.cuaSnap else SnapPath.nativeKeys

/-- Result of one executor run: success with a tag, or a failure message. -/
inductive ExecResult where
  | ok (tag : String)
  | err (msg : String)
  deriving Repr, DecidableEq

/-- Outcome of executing one action under the Router retry policy. -/
structure ExecOutcome where
  nativeAttempts : Nat
  usedSandbox : Bool
  result : ExecResult
  deriving Repr, DecidableEq

/-- Modelled from the spec: the bounded retry-then-fallback policy of
section 4.5 (backend not in src/).  `native1`/`native2` give the outcome of
the first and second attempt on the Native Adapter (`none` is success,
`some msg` a failure during execution); `sandbox` the outcome of a sandbox
run.  A first-attempt failure is retried exactly once on the same adapter;
if the retry also fails, a fallback-eligible action re-routes to Sandboxed
and any other action surfaces the original failure unchanged. -/
def executeWithRetry (a : RoutedAction)
    (native1 native2 : Option String) (sandbox : ExecResult) :
    ExecOutcome :=
  match native1 with
  | none => { nativeAttempts := 1, usedSandbox := false, result := ExecResult.ok "native" }
  | some msg1 =>
      match native2 with
      | none => { nativeAttempts := 2, usedSandbox := false, result := ExecResult.ok "native" }
      | some _ =>
          if a.fallbackEligible then
            { nativeAttempts := 2, usedSandbox := true, result := sandbox }
          else
            { nativeAttempts := 2, usedSandbox := false, result := ExecResult.err msg1 }

/-! ## Claims -/

/-- C1: `execute` is reachable only from `Approved`: applying the execute
event in any other Pipeline state fails with `InvalidTransitionError`; by
contrast the frontend chat flow requests server-side auto-execution
(`auto_execute: true` on the power chat body) and fires an autoplan request
with `execute: true` immediately after the model reply, with no approval
step in between. -/
theorem c1_execute_only_from_approved
    (st : ActionState) (execOk : Bool) (s : SendState) (o : NetResponses)
    (h : st ≠ ActionState.Approved)
    (hg : sendMessageEarlyReturn s = false)
    (hp : s.powerMode = true)
    (hu : o.uploadOk = true)
    (hsel : jsTrim s.savedSelectionText = "")
    (hok : o.powerChatOk = true) :
    pipeStep st (PipeEvent.executeEv execOk) =
      Except.error PipelineError.InvalidTransitionError ∧
    (∀ chatId fullText selTxt service tags memCtx,
      (powerChatBody chatId fullText selTxt service tags memCtx).auto_execute = true) ∧
    Request.autoplan (autoplanBody s.userMessage) ∈ (sendMessageRun s o).requests ∧
    (autoplanBody s.userMessage).execute = true := by
  refine ⟨?_, fun _ _ _ _ _ _ => rfl, ?_, rfl⟩
  · cases st <;> first | rfl | exact absurd rfl h
  · simp [sendMessageRun, hg, hp, hu, hsel, hok]

/-- Witness for C1 at a concrete state: Drafted is not Approved, and the
concrete power-mode send fires the autoplan request. -/
theorem c1_execute_only_from_approved_witness :
    pipeStep ActionState.Drafted (PipeEvent.executeEv true) =
      Except.error PipelineError.InvalidTransitionError ∧
    (∀ chatId fullText selTxt service tags memCtx,
      (powerChatBody chatId fullText selTxt service tags memCtx).auto_execute = true) ∧
    Request.autoplan (autoplanBody "make a file") ∈
      (sendMessageRun
        { userMessage := "make a file", attachedFileNames := [], isSending := false
        , selectedChatId := "chat_1", powerMode := true, savedSelectionText := ""
        , monitoringActive := false, selectedTags := [] }
        { fileContent := "", uploadOk := true, memContext := none, enhanceOk := true
        , powerChatOk := true, actionCount := 0, serverHandled := false
        , planOk := true, planActionCount := 0 }).requests ∧
    (autoplanBody "make a file").execute = true :=
  c1_execute_only_from_approved ActionState.Drafted true _ _
    (by decide) (by decide) (by decide) (by decide) (by decide) (by decide)

/-- C2: `preview(action)` never mutates host state: previewing the
`fs.create_folder` action built by `previewCreateFolder` with parent
`projects`, name `demo` and `preview_only: true` yields a dry-run summary
whose target path is `projects/demo`, the filesystem after the call equals
the one before, no such folder exists afterwards, and preview leaves the
filesystem unchanged for every action. -/
theorem c2_preview_never_mutates (fs : List String) (uuid : String)
    (h : fs.contains "projects/demo" = false) :
    (agentPreview fs (previewCreateFolderAction uuid "projects" "demo")).2 = fs ∧
    ((agentPreview fs (previewCreateFolderAction uuid "projects" "demo")).1.map
        PreviewSummary.target_path) = some "projects/demo" ∧
    ((agentPreview fs (previewCreateFolderAction uuid "projects" "demo")).2.contains
        "projects/demo") = false ∧
    (∀ fs' a', (agentPreview fs' a').2 = fs') := by
  refine ⟨rfl, rfl, h, fun fs' a' => ?_⟩
  unfold agentPreview
  split
  · rfl
  · split <;> rfl

/-- Witness for C2 on the empty filesystem. -/
theorem c2_preview_never_mutates_witness :
    (agentPreview [] (previewCreateFolderAction "id-1" "projects" "demo")).2 = [] ∧
    ((agentPreview [] (previewCreateFolderAction "id-1" "projects" "demo")).1.map
        PreviewSummary.target_path) = some "projects/demo" ∧
    ((agentPreview [] (previewCreateFolderAction "id-1" "projects" "demo")).2.contains
        "projects/demo") = false ∧
    (∀ fs' a', (agentPreview fs' a').2 = fs') :=
  c2_preview_never_mutates [] "id-1" (by decide)

/-- C3: every action that reaches `Executed`, `Failed` or `Denied` has
exactly one corresponding audit entry, and an action whose type has no
registered schema is rejected with `UnknownActionError` and writes no
audit entry at all. -/
theorem c3_terminal_audit_exactly_one
    (reg1 reg2 : List String) (log : List AuditEntry) (a : AgentAction)
    (approved execOk : Bool)
    (hfresh : auditCountFor log a.id = 0)
    (h1 : reg1.contains a.type = true)
    (h2 : reg2.contains a.type = false) :
    ((submitPlanOne reg1 log a approved execOk).1 = Except.ok ActionState.Executed ∨
     (submitPlanOne reg1 log a approved execOk).1 = Except.ok ActionState.Failed ∨
     (submitPlanOne reg1 log a approved execOk).1 = Except.ok ActionState.Denied) ∧
    auditCountFor (submitPlanOne reg1 log a approved execOk).2 a.id = 1 ∧
    (submitPlanOne reg2 log a approved execOk).1 =
      Except.error PipelineError.UnknownActionError ∧
    (submitPlanOne reg2 log a approved execOk).2 = log := by
  have h1' : a.type ∈ reg1 := by simpa using h1
  have h2' : a.type ∉ reg2 := by simpa using h2
  have hcount : ∀ st : ActionState, auditCountFor
      (log ++ [{ action_id := a.id, action_type := a.type, outcome := st }]) a.id = 1 := by
    intro st
    simp only [auditCountFor, List.filter_append, List.length_append]
    simp only [auditCountFor] at hfresh
    rw [hfresh]
    simp
  refine ⟨?_, ?_, ?_, ?_⟩
  · cases approved <;> cases execOk <;> simp [submitPlanOne, h1']
  · cases approved <;> cases execOk <;>
      simpa [submitPlanOne, h1'] using hcount _
  · simp [submitPlanOne, h2']
  · simp [submitPlanOne, h2']

/-- Witness for C3 at a concrete registered and unregistered action. -/
theorem c3_terminal_audit_exactly_one_witness :
    ((submitPlanOne ["fs.create_folder"] []
        { id := "a1", type := "fs.create_folder",
          params := [("parent_path", "projects"), ("name", "demo")],
          preview_only := false } true true).1 = Except.ok ActionState.Executed ∨
     (submitPlanOne ["fs.create_folder"] []
        { id := "a1", type := "fs.create_folder",
          params := [("parent_path", "projects"), ("name", "demo")],
          preview_only := false } true true).1 = Except.ok ActionState.Failed ∨
     (submitPlanOne ["fs.create_folder"] []
        { id := "a1", type := "fs.create_folder",
          params := [("parent_path", "projects"), ("name", "demo")],
          preview_only := false } true true).1 = Except.ok ActionState.Denied) ∧
    auditCountFor (submitPlanOne ["fs.create_folder"] []
        { id := "a1", type := "fs.create_folder",
          params := [("parent_path", "projects"), ("name", "demo")],
          preview_only := false } true true).2 "a1" = 1 ∧
    (submitPlanOne [] []
        { id := "a1", type := "fs.create_folder",
          params := [("parent_path", "projects"), ("name", "demo")],
          preview_only := false } true true).1 =
      Except.error PipelineError.UnknownActionError ∧
    (submitPlanOne [] []
        { id := "a1", type := "fs.create_folder",
          params := [("parent_path", "projects"), ("name", "demo")],
          preview_only := false } true true).2 = [] :=
  c3_terminal_audit_exactly_one ["fs.create_folder"] [] []
    { id := "a1", type := "fs.create_folder",
      params := [("parent_path", "projects"), ("name", "demo")],
      preview_only := false } true true
    (by decide) (by decide) (by decide)

/-- C4: `request_split` is idempotent: when the tracker state already equals
the requested split state the call performs zero OS-level arrangement
operations yet reports success, the second of two consecutive calls always
performs zero operations, and two consecutive `request_split(side)` calls
from a non-matching state perform exactly one operation in total. -/
theorem c4_request_split_idempotent (st st0 : ArrangementState) (side : Side)
    (h : st ≠ splitStateOf side) (h0 : st0 = splitStateOf side) :
    requestSplit st0 side = { newState := st0, osOps := 0, success := true } ∧
    (∀ st1, (requestSplit st1 side).success = true) ∧
    (∀ st1, (requestSplit (requestSplit st1 side).newState side).osOps = 0) ∧
    (requestSplit st side).osOps +
      (requestSplit (requestSplit st side).newState side).osOps = 1 := by
  subst h0
  refine ⟨by simp [requestSplit], ?_, ?_, ?_⟩
  · intro st1
    by_cases hc : st1 = splitStateOf side <;> simp [requestSplit, hc]
  · intro st1
    by_cases hc : st1 = splitStateOf side <;> simp [requestSplit, hc]
  · simp [requestSplit, h]

/-- Witness for C4: two consecutive left splits from `Unknown`. -/
theorem c4_request_split_idempotent_witness :
    requestSplit ArrangementState.SplitLeft Side.Left =
      { newState := ArrangementState.SplitLeft, osOps := 0, success := true } ∧
    (∀ st1, (requestSplit st1 Side.Left).success = true) ∧
    (∀ st1, (requestSplit (requestSplit st1 Side.Left).newState Side.Left).osOps = 0) ∧
    (requestSplit ArrangementState.Unknown Side.Left).osOps +
      (requestSplit (requestSplit ArrangementState.Unknown Side.Left).newState
        Side.Left).osOps = 1 :=
  c4_request_split_idempotent ArrangementState.Unknown ArrangementState.SplitLeft
    Side.Left (by decide) (by decide)

/-- C5: bounded retry-then-fallback: an execution-time Native failure is
retried exactly once on the same adapter (never more than two native
attempts, a successful first attempt is never retried), a failed retry on a
fallback-eligible action re-routes to the sandbox, a failed retry on a
non-eligible action surfaces the original failure unchanged, and a
non-eligible action never reaches the sandbox. -/
theorem c5_bounded_retry_fallback (ty m1 m2 : String) (ms : Bool)
    (sb : ExecResult) :
    (∀ elig n1 n2 sb',
        (executeWithRetry { type := ty, markedSandboxed := ms, fallbackEligible := elig }
          n1 n2 sb').nativeAttempts ≤ 2) ∧
    (∀ elig n2 sb',
        (executeWithRetry { type := ty, markedSandboxed := ms, fallbackEligible := elig }
          none n2 sb').nativeAttempts = 1) ∧
    (∀ elig sb',
        executeWithRetry { type := ty, markedSandboxed := ms, fallbackEligible := elig }
          (some m1) none sb' =
        { nativeAttempts := 2, usedSandbox := false, result := ExecResult.ok "native" }) ∧
    executeWithRetry { type := ty, markedSandboxed := ms, fallbackEligible := true }
        (some m1) (some m2) sb =
      { nativeAttempts := 2, usedSandbox := true, result := sb } ∧
    executeWithRetry { type := ty, markedSandboxed := ms, fallbackEligible := false }
        (some m1) (some m2) sb =
      { nativeAttempts := 2, usedSandbox := false, result := ExecResult.err m1 } ∧
    (∀ n1 n2 sb',
        (executeWithRetry { type := ty, markedSandboxed := ms, fallbackEligible := false }
          n1 n2 sb').usedSandbox = false) := by
  refine ⟨?_, ?_, ?_, ?_, ?_, ?_⟩
  · intro elig n1 n2 sb'
    cases n1 <;> cases n2 <;> cases elig <;> simp [executeWithRetry]
  · intro elig n2 sb'
    rfl
  · intro elig sb'
    rfl
  · simp [executeWithRetry]
  · simp [executeWithRetry]
  · intro n1 n2 sb'
    cases n1 <;> cases n2 <;> simp [executeWithRetry]

/-- C6 counterexample: under the claim's own decision order, a non-eligible
action type lacking a Native Adapter is routed to Sandboxed by rule 2 ("no
Native Adapter exists for the type"), not rejected with `NoExecutorError`
as the claim's final clause states. -/
theorem c6_route_counterexample :
    route [] [] { type := "ui.custom_wizard", markedSandboxed := false,
                  fallbackEligible := false } = RouteResult.sandboxed ∧
    RouteResult.sandboxed ≠ RouteResult.noExecutor := by
  exact ⟨rfl, by decide⟩

/-- C6 (amended): `route` follows the fixed decision order — Native when an
adapter exists and its last probe is fresh and healthy; else Sandboxed when
the action is marked UI-only/sandboxed or no adapter exists; else
`NoExecutorError`.  When the adapter is unhealthy, marked-sandboxed actions
route to Sandboxed, actions lacking an adapter route to Sandboxed
regardless of eligibility, and unmarked actions that do have an (unhealthy)
adapter get `NoExecutorError`; the repository README's snapping strategy,
by contrast, prefers the CUA/sandboxed path when healthy and falls back to
native. -/
theorem c6_route_decision_order
    (adapters healthy : List String) (ty tyAbsent tyHealthy : String)
    (m e : Bool)
    (hu : healthy.contains ty = false)
    (hp : adapters.contains ty = true)
    (ha : adapters.contains tyAbsent = false)
    (hh1 : adapters.contains tyHealthy = true)
    (hh2 : healthy.contains tyHealthy = true) :
    route adapters healthy
        { type := ty, markedSandboxed := true, fallbackEligible := e }
      = RouteResult.sandboxed ∧
    route adapters healthy
        { type := tyAbsent, markedSandboxed := false, fallbackEligible := e }
      = RouteResult.sandboxed ∧
    route adapters healthy
        { type := ty, markedSandboxed := false, fallbackEligible := e }
      = RouteResult.noExecutor ∧
    route adapters healthy
        { type := tyHealthy, markedSandboxed := m, fallbackEligible := e }
      = RouteResult.native ∧
    snapStrategy true = SnapPath.cuaSnap ∧
    snapStrategy false = SnapPath.nativeKeys := by
  have hu' : ty ∉ healthy := by simpa using hu
  have hp' : ty ∈ adapters := by simpa using hp
  have ha' : tyAbsent ∉ adapters := by simpa using ha
  have hh1' : tyHealthy ∈ adapters := by simpa using hh1
  have hh2' : tyHealthy ∈ healthy := by simpa using hh2
  refine ⟨?_, ?_, ?_, ?_, rfl, rfl⟩ <;>
    simp [route, hu', hp', ha', hh1', hh2']

/-- Witness for C6 (amended) with a concrete adapter table. -/
theorem c6_route_decision_order_witness :
    route ["word.create_document", "vsc.open_file"] ["vsc.open_file"]
        { type := "word.create_document", markedSandboxed := true,
          fallbackEligible := true }
      = RouteResult.sandboxed ∧
    route ["word.create_document", "vsc.open_file"] ["vsc.open_file"]
        { type := "ui.custom_wizard", markedSandboxed := false,
          fallbackEligible := true }
      = RouteResult.sandboxed ∧
    route ["word.create_document", "vsc.open_file"] ["vsc.open_file"]
        { type := "word.create_document", markedSandboxed := false,
          fallbackEligible := true }
      = RouteResult.noExecutor ∧
    route ["word.create_document", "vsc.open_file"] ["vsc.open_file"]
        { type := "vsc.open_file", markedSandboxed := false,
          fallbackEligible := true }
      = RouteResult.native ∧
    snapStrategy true = SnapPath.cuaSnap ∧
    snapStrategy false = SnapPath.nativeKeys :=
  c6_route_decision_order ["word.create_document", "vsc.open_file"]
    ["vsc.open_file"] "word.create_document" "ui.custom_wizard" "vsc.open_file"
    false true (by decide) (by decide) (by decide) (by decide) (by decide)

/-- C7: a caller-supplied `split_screen=false` is normalized to `true` by
the Pipeline and the normalization is recorded verbatim (original and
effective value) in the audit record, never applied silently; the frontend
`loadChatMessages` reopen request unconditionally sends
`split_screen: true`. -/
theorem c7_split_normalization_recorded :
    (∀ b, (normalizeSplitScreen b).1 = true) ∧
    (normalizeSplitScreen false).2 = some (false, true) ∧
    (normalizeSplitScreen true).2 = none ∧
    (∀ b, (normalizeSplitScreen b).1 = b ∨ (normalizeSplitScreen b).2 ≠ none) ∧
    (∀ docPath messageTexts,
        (openDocBody docPath messageTexts).split_screen = true) := by
  refine ⟨fun b => ?_, rfl, rfl, fun b => ?_, fun _ _ => rfl⟩
  · cases b <;> rfl
  · cases b
    · exact Or.inr (by simp [normalizeSplitScreen])
    · exact Or.inl rfl

/-- C8 counterexample: at this concrete state the selection snapshot is
stale — `getFreshInlineSelectionPreview` rejects it — yet the power chat
request issued by `sendMessage` still carries an inline-selection section,
because the send uses the saved selection text without re-checking
freshness; so a stale snapshot does not imply that no inline context is
attached. -/
theorem c8_stale_snapshot_counterexample :
    getFreshInlineSelectionPreview
      (some { source := "clipboard", label := "Clipboard (from Word/App)"
            , preview := "old selected text", len := 17, timestamp := some 0 })
      1000000 true 15000 = none ∧
    (sendMessageRun
      { userMessage := "improve this", attachedFileNames := [], isSending := false
      , selectedChatId := "chat_1", powerMode := true, savedSelectionText := "abc"
      , monitoringActive := true, selectedTags := [] }
      { fileContent := "", uploadOk := true, memContext := none, enhanceOk := true
      , powerChatOk := true, actionCount := 0, serverHandled := false
      , planOk := true, planActionCount := 0 }).requests =
      [Request.powerChat
        { chat_id := "chat_1"
        , text := "improve this\n\n[Inline Selection Preview]:\nabc"
        , doc_info := none, service := "power_mode", selected_tags := none
        , mem_tags := none, mem_context := none, auto_execute := true },
       Request.autoplan
        { prompt := "improve this", execute := true, base_folder := "project" }] ∧
    "improve this\n\n[Inline Selection Preview]:\nabc" ≠ "improve this" := by
  refine ⟨by decide, by decide, by decide⟩

/-- C8 (amended): the clipboard monitor is a fixed-interval cancellable
background task — stopping always clears the interval and a stopped
monitor's tick does nothing; a missing or stale snapshot (no snapshot, no
numeric timestamp, or older than the freshness window) yields no fresh
preview from the guarded accessor `getFreshInlineSelectionPreview`; the
inline context attached at send time comes instead from the saved selection
text captured by the monitor, so an empty saved selection attaches no
inline context, and in every such case the power chat request is still
issued — the request proceeds rather than failing. -/
theorem c8_background_signal_degrades
    (e1 e2 : SelectionEntry) (ts nowMs maxAgeMs : Int) (pm : Bool)
    (s : SendState) (o : NetResponses)
    (hts : e1.timestamp = none)
    (ht2 : e2.timestamp = some ts)
    (hstale : nowMs - ts * 1000 > maxAgeMs)
    (hg : sendMessageEarlyReturn s = false)
    (hp : s.powerMode = true)
    (hu : o.uploadOk = true)
    (hsel : jsTrim s.savedSelectionText = "")
    (hok : o.powerChatOk = true) :
    getFreshInlineSelectionPreview none nowMs pm maxAgeMs = none ∧
    getFreshInlineSelectionPreview (some e1) nowMs pm maxAgeMs = none ∧
    getFreshInlineSelectionPreview (some e2) nowMs pm maxAgeMs = none ∧
    (∀ chatId fullText service tags memCtx,
        (powerChatBody chatId fullText "" service tags memCtx).text = fullText) ∧
    (sendMessageRun s o).requests ≠ [] ∧
    (∀ m, (stopClipboardMonitoring m).running = false) ∧
    (∀ pm' clip m, clipboardMonitorTick pm' clip (stopClipboardMonitoring m)
        = stopClipboardMonitoring m) := by
  refine ⟨rfl, ?_, ?_, ?_, ?_, fun m => rfl, fun pm' clip m => rfl⟩
  · obtain ⟨src, lbl, pre, ln, tsf⟩ := e1
    have hts' : tsf = none := hts
    subst hts'
    simp only [getFreshInlineSelectionPreview]
    split <;> rfl
  · obtain ⟨src, lbl, pre, ln, tsf⟩ := e2
    have ht2' : tsf = some ts := ht2
    subst ht2'
    simp only [getFreshInlineSelectionPreview]
    split
    · rfl
    · simp [hstale]
  · intro chatId fullText service tags memCtx
    show fullText ++ (if ("" != "") = true then
      "\n\n[Inline Selection Preview]:\n" ++ "" else "") = fullText
    simp
  · have hmem : Request.autoplan (autoplanBody s.userMessage) ∈
        (sendMessageRun s o).requests := by
      simp [sendMessageRun, hg, hp, hu, hsel, hok]
    exact List.ne_nil_of_mem hmem

/-- Witness for C8 (amended) at a concrete state. -/
theorem c8_background_signal_degrades_witness :
    getFreshInlineSelectionPreview none 1000000 true 15000 = none ∧
    getFreshInlineSelectionPreview
      (some { source := "clipboard", label := "", preview := "x", len := 1,
              timestamp := none }) 1000000 true 15000 = none ∧
    getFreshInlineSelectionPreview
      (some { source := "clipboard", label := "", preview := "y", len := 1,
              timestamp := some 0 }) 1000000 true 15000 = none ∧
    (∀ chatId fullText service tags memCtx,
        (powerChatBody chatId fullText "" service tags memCtx).text = fullText) ∧
    (sendMessageRun
      { userMessage := "make a plan", attachedFileNames := [], isSending := false
      , selectedChatId := "chat_2", powerMode := true, savedSelectionText := ""
      , monitoringActive := false, selectedTags := [] }
      { fileContent := "", uploadOk := true, memContext := none, enhanceOk := true
      , powerChatOk := true, actionCount := 0, serverHandled := false
      , planOk := true, planActionCount := 0 }).requests ≠ [] ∧
    (∀ m, (stopClipboardMonitoring m).running = false) ∧
    (∀ pm' clip m, clipboardMonitorTick pm' clip (stopClipboardMonitoring m)
        = stopClipboardMonitoring m) :=
  c8_background_signal_degrades
    { source := "clipboard", label := "", preview := "x", len := 1, timestamp := none }
    { source := "clipboard", label := "", preview := "y", len := 1, timestamp := some 0 }
    0 1000000 15000 true
    { userMessage := "make a plan", attachedFileNames := [], isSending := false
    , selectedChatId := "chat_2", powerMode := true, savedSelectionText := ""
    , monitoringActive := false, selectedTags := [] }
    { fileContent := "", uploadOk := true, memContext := none, enhanceOk := true
    , powerChatOk := true, actionCount := 0, serverHandled := false
    , planOk := true, planActionCount := 0 }
    (by decide) (by decide) (by decide) (by decide) (by decide) (by decide)
    (by decide) (by decide)

/-- C9: Power-Mode-off noninterference: with Power Mode off the guarded
preview is always `null` regardless of the snapshot,
`refreshInlineSelection` clears the selection data, the clipboard monitor
stops itself on its next tick, disabling Power Mode clears the monitor and
saved selection, and two non-power sends that differ only in the saved
selection text and monitoring flag issue identical requests. -/
theorem c9_power_off_noninterference (i : InlineState) (s : SendState)
    (t1 t2 : String) (b1 b2 : Bool) (o : NetResponses)
    (hpm : i.powerMode = false) (hs : s.powerMode = false) :
    (∀ summary nowMs maxAgeMs,
        getFreshInlineSelectionPreview summary nowMs false maxAgeMs = none) ∧
    (∀ quiet clip probe nowSec,
        (refreshInlineSelection i quiet clip probe nowSec).data = none) ∧
    (∀ clip m, (clipboardMonitorTick false clip m).running = false) ∧
    (∀ m i', (powerModeWatch false m i').1.savedSelectionText = "" ∧
             (powerModeWatch false m i').1.running = false ∧
             (powerModeWatch false m i').2.data = none) ∧
    sendMessageRun { s with savedSelectionText := t1, monitoringActive := b1 } o =
      sendMessageRun { s with savedSelectionText := t2, monitoringActive := b2 } o := by
  refine ⟨?_, ?_, ?_, ?_, ?_⟩
  · intro summary nowMs maxAgeMs
    cases summary with
    | none => rfl
    | some e =>
        obtain ⟨src, lbl, pre, ln, tsf⟩ := e
        cases tsf with
        | none =>
            simp only [getFreshInlineSelectionPreview]
            split <;> rfl
        | some ts =>
            simp only [getFreshInlineSelectionPreview]
            split
            · rfl
            · split
              · rfl
              · simp
  · intro quiet clip probe nowSec
    unfold refreshInlineSelection
    rw [hpm]
    cases quiet <;> rfl
  · intro clip m
    by_cases hr : m.running = true <;>
      simp [clipboardMonitorTick, stopClipboardMonitoring, hr]
  · intro m i'
    exact ⟨rfl, rfl, rfl⟩
  · simp [sendMessageRun, sendMessageEarlyReturn, hs]

/-- Witness for C9 with concrete non-power states differing only in the
saved selection and monitoring flag. -/
theorem c9_power_off_noninterference_witness :
    (∀ summary nowMs maxAgeMs,
        getFreshInlineSelectionPreview summary nowMs false maxAgeMs = none) ∧
    (∀ quiet clip probe nowSec,
        (refreshInlineSelection
          { powerMode := false, data := none, error := "", shouldReport := false
          , loading := false, lastClipboardText := "" }
          quiet clip probe nowSec).data = none) ∧
    (∀ clip m, (clipboardMonitorTick false clip m).running = false) ∧
    (∀ m i', (powerModeWatch false m i').1.savedSelectionText = "" ∧
             (powerModeWatch false m i').1.running = false ∧
             (powerModeWatch false m i').2.data = none) ∧
    sendMessageRun
      { userMessage := "hello", attachedFileNames := [], isSending := false
      , selectedChatId := "chat_3", powerMode := false
      , savedSelectionText := "secret clipboard text", monitoringActive := true
      , selectedTags := [] }
      { fileContent := "", uploadOk := true, memContext := none, enhanceOk := true
      , powerChatOk := true, actionCount := 0, serverHandled := false
      , planOk := true, planActionCount := 0 } =
    sendMessageRun
      { userMessage := "hello", attachedFileNames := [], isSending := false
      , selectedChatId := "chat_3", powerMode := false
      , savedSelectionText := "", monitoringActive := false
      , selectedTags := [] }
      { fileContent := "", uploadOk := true, memContext := none, enhanceOk := true
      , powerChatOk := true, actionCount := 0, serverHandled := false
      , planOk := true, planActionCount := 0 } :=
  c9_power_off_noninterference
    { powerMode := false, data := none, error := "", shouldReport := false
    , loading := false, lastClipboardText := "" }
    { userMessage := "hello", attachedFileNames := [], isSending := false
    , selectedChatId := "chat_3", powerMode := false
    , savedSelectionText := "ignored", monitoringActive := false
    , selectedTags := [] }
    "secret clipboard text" "" true false _ (by decide) (by decide)

/-- C10: the `sendMessage` reentrancy guard: a call while a previous send is
in flight, or with no chat selected, or with empty trimmed input and no
attached files, returns immediately — it issues no network request and
appends nothing to the message list. -/
theorem c10_send_message_guard (s1 s2 s3 : SendState) (o1 o2 o3 : NetResponses)
    (h1 : s1.isSending = true)
    (h2 : s2.selectedChatId = "")
    (h3 : jsTrim s3.userMessage = "")
    (h3' : s3.attachedFileNames = []) :
    sendMessageRun s1 o1 = { requests := [], appendedCount := 0 } ∧
    sendMessageRun s2 o2 = { requests := [], appendedCount := 0 } ∧
    sendMessageRun s3 o3 = { requests := [], appendedCount := 0 } := by
  refine ⟨?_, ?_, ?_⟩
  · simp [sendMessageRun, sendMessageEarlyReturn, h1]
  · simp [sendMessageRun, sendMessageEarlyReturn, h2]
  · simp [sendMessageRun, sendMessageEarlyReturn, h3, h3']

/-- Witness for C10 at three concrete guarded states. -/
theorem c10_send_message_guard_witness :
    sendMessageRun
      { userMessage := "hi", attachedFileNames := [], isSending := true
      , selectedChatId := "chat_4", powerMode := false, savedSelectionText := ""
      , monitoringActive := false, selectedTags := [] }
      { fileContent := "", uploadOk := true, memContext := none, enhanceOk := true
      , powerChatOk := true, actionCount := 0, serverHandled := false
      , planOk := true, planActionCount := 0 } =
      { requests := [], appendedCount := 0 } ∧
    sendMessageRun
      { userMessage := "hi", attachedFileNames := [], isSending := false
      , selectedChatId := "", powerMode := false, savedSelectionText := ""
      , monitoringActive := false, selectedTags := [] }
      { fileContent := "", uploadOk := true, memContext := none, enhanceOk := true
      , powerChatOk := true, actionCount := 0, serverHandled := false
      , planOk := true, planActionCount := 0 } =
      { requests := [], appendedCount := 0 } ∧
    sendMessageRun
      { userMessage := "   ", attachedFileNames := [], isSending := false
      , selectedChatId := "chat_4", powerMode := false, savedSelectionText := ""
      , monitoringActive := false, selectedTags := [] }
      { fileContent := "", uploadOk := true, memContext := none, enhanceOk := true
      , powerChatOk := true, actionCount := 0, serverHandled := false
      , planOk := true, planActionCount := 0 } =
      { requests := [], appendedCount := 0 } :=
  c10_send_message_guard _ _ _ _ _ _
    (by decide) (by decide) (by decide) (by decide)
